import Mathlib

/-!
Verification of the stm32f7-qspi driver (qspi-flash.cpp, qspi-winbond.cpp,
qspi-winbond.h) against its natural-language specification.

The driver is embedded shallowly:
* the pure page-splitting arithmetic of `qspi::write` becomes Lean functions
  on `Nat` and `List Nat`;
* every hardware operation becomes a function from an explicit environment
  (one Boolean per fallible HAL/RTOS step, plus any received bytes) to its
  Boolean result and a trace of the externally visible events it performs
  (lock attempts, unlocks, aborts, commands with their full descriptor,
  transfers, semaphore waits).

The header `qspi-flash.h` is not part of the sources at hand; the numeric
opcode and timeout constants it defines are modelled from the specification
where needed and are marked as such.
-/

namespace Qspi

/-- Modelled from the spec: `QSPI_TIMEOUT` is defined in the missing header
`qspi-flash.h`; it is the bounded wait used for locks, commands and ordinary
completion waits.  The exact value is irrelevant to the claims. -/
def QSPI_TIMEOUT : Nat := 100

/-- Modelled from the spec: `QSPI_ERASE_TIMEOUT` (sector/block erase bound)
is defined in the missing header `qspi-flash.h`.  The spec requires the
sector/block bound to be shorter than the chip-erase bound. -/
def QSPI_ERASE_TIMEOUT : Nat := 2000

/-- Modelled from the spec: `QSPI_CHIP_ERASE_TIMEOUT` (chip erase bound) is
defined in the missing header `qspi-flash.h`.  The spec requires it to be
the longest of all the erase bounds. -/
def QSPI_CHIP_ERASE_TIMEOUT : Nat := 200000

/-- Modelled from the spec: the JEDEC identification opcode, declared in the
missing header `qspi-flash.h` (standard value 0x9F). -/
def JEDEC_ID : Nat := 0x9F

/-- Modelled from the spec: the write-enable opcode, declared in the missing
header `qspi-flash.h` (standard value 0x06). -/
def WRITE_ENABLE : Nat := 0x06

/-- Modelled from the spec: the status-register read opcode, declared in the
missing header `qspi-flash.h` (standard value 0x05). -/
def READ_STATUS_REGISTER : Nat := 0x05

/-- Modelled from the spec: the quad-output fast-read opcode, declared in the
missing header `qspi-flash.h` (standard value 0x6B). -/
def FAST_READ_QUAD_OUT : Nat := 0x6B

/-- Modelled from the spec: the quad page-program opcode, declared in the
missing header `qspi-flash.h` (standard value 0x32). -/
def QUAD_PAGE_PROGRAM : Nat := 0x32

/-- Modelled from the spec: the sector (4K) erase opcode, declared in the
missing header `qspi-flash.h` (standard value 0x20). -/
def SECTOR_ERASE : Nat := 0x20

/-- Modelled from the spec: the 32K block erase opcode, declared in the
missing header `qspi-flash.h` (standard value 0x52). -/
def BLOCK_32K_ERASE : Nat := 0x52

/-- Modelled from the spec: the 64K block erase opcode, declared in the
missing header `qspi-flash.h` (standard value 0xD8). -/
def BLOCK_64K_ERASE : Nat := 0xD8

/-- Modelled from the spec: the chip erase opcode, declared in the missing
header `qspi-flash.h` (standard value 0xC7). -/
def CHIP_ERASE : Nat := 0xC7

/-- Winbond-specific opcode, from `qspi-winbond.h`. -/
def VOLATILE_SR_WRITE_ENABLE : Nat := 0x50

/-- Winbond-specific opcode, from `qspi-winbond.h`. -/
def READ_STATUS_REGISTER_2 : Nat := 0x35

/-- Winbond-specific opcode, from `qspi-winbond.h`. -/
def WRITE_STATUS_REGISTER_2 : Nat := 0x31

/-!
### The page-splitting arithmetic of `qspi::write` (qspi-flash.cpp 128-157)
-/

/-- The chunk-size computation of one iteration of the `do`/`while` loop in
`qspi::write` (qspi-flash.cpp 136-144):

    in_block_count = 0x100 - (address & 0xFF);
    if (in_block_count > count)
      in_block_count = count;
    else if (in_block_count == 0)
      in_block_count = (count > 0x100) ? 0x100 : count;
-/
def in_block_count (address count : Nat) : Nat :=
  let ibc := 0x100 - (address &&& 0xFF)
  if ibc > count then count
  else if ibc = 0 then (if count > 0x100 then 0x100 else count)
  else ibc

/-- One run of the `do`/`while` loop of `qspi::write` (qspi-flash.cpp
136-154).  `pw address len` is the result the underlying
`qspi_winbond::page_write` returns for the chunk at `address` of length
`len`; the function returns the final Boolean result of `qspi::write`
together with the list of chunks issued to `page_write`, each chunk being
the start address paired with the slice of the buffer handed over
(the source advances `buff` by `in_block_count` on every iteration). -/
def write_run (pw : Nat → Nat → Bool) (address : Nat) (buff : List Nat)
    (count : Nat) : Bool × List (Nat × List Nat) :=
  let ibc := in_block_count address count
  if pw address ibc = false then (false, [(address, buff.take ibc)])
  else if count - ibc = 0 then (true, [(address, buff.take ibc)])
  else
    ((write_run pw (address + ibc) (buff.drop ibc) (count - ibc)).1,
      (address, buff.take ibc) ::
        (write_run pw (address + ibc) (buff.drop ibc) (count - ibc)).2)
termination_by count
decreasing_by
  all_goals
    have h255a : address &&& 0xFF ≤ 0xFF := Nat.and_le_right
    have hcount : 0 < count := by omega
    refine Nat.sub_lt hcount ?_
    dsimp only [in_block_count]
    split
    · exact hcount
    · split
      · omega
      · omega

/-- The chunks `qspi::write` issues when every `page_write` succeeds, for a
call with `count = buff.length` (the sensible calling convention). -/
def write_chunks (address : Nat) (buff : List Nat) : List (Nat × List Nat) :=
  (write_run (fun _ _ => true) address buff buff.length).2

/-- Modelled from the spec (refinement reference): the chunk-address/length
sequence prescribed by the specification sentence "chunk length =
`min(count, 256 - (address & 0xFF))`", iterated over the remaining range.
This is the spec-side description that `write_run` is compared against. -/
def chunks_spec (address count : Nat) : List (Nat × Nat) :=
  let l := min count (0x100 - address % 0x100)
  if count - l = 0 then [(address, l)]
  else (address, l) :: chunks_spec (address + l) (count - l)
termination_by count
decreasing_by
  have hlt : address % 0x100 < 0x100 := Nat.mod_lt _ (by norm_num)
  omega

/-!
### Event-trace models of the hardware operations

Each fallible HAL/RTOS step of an operation is controlled by one field of
an environment structure; the operation returns its Boolean result together
with the exact sequence of externally visible actions it performs, in
source order.
-/

/-- Address-phase configuration of a command (`sCommand.AddressMode`). -/
inductive AddrMode where
  | addr_none
  | one_line
  | four_lines
deriving DecidableEq, Repr

/-- Data-phase configuration of a command (`sCommand.DataMode`). -/
inductive DataMode where
  | data_none
  | one_line
  | four_lines
deriving DecidableEq, Repr

/-- The fields of `QSPI_CommandTypeDef` that the driver varies between
commands.  `DdrMode`, `DdrHoldHalfCycle`, `SIOOMode`, `AddressSize` and the
alternate-byte settings are set to the same fixed values by every operation
and are omitted.  Fields the source leaves uninitialized before a given
command are modelled as 0. -/
structure Cmd where
  instruction : Nat
  addressMode : AddrMode
  dataMode : DataMode
  dummyCycles : Nat
  nbData : Nat
  address : Nat
deriving DecidableEq, Repr

/-- Externally visible actions of one driver operation, in program order:
mutex lock attempts and unlocks, `HAL_QSPI_Abort`, `HAL_QSPI_Command`,
`HAL_QSPI_Receive`/`_IT`, `HAL_QSPI_Transmit`, `HAL_QSPI_AutoPolling_IT`,
`HAL_QSPI_MemoryMapped` and semaphore waits (with their timeout bound). -/
inductive Event where
  | lockAttempt (ok : Bool)
  | unlock
  | abort
  | command (c : Cmd) (ok : Bool)
  | receive (ok : Bool)
  | receive_IT (ok : Bool)
  | transmit (ok : Bool)
  | autopoll_IT (c : Cmd) (ok : Bool)
  | semWait (timeout : Nat) (ok : Bool)
  | memMap (c : Cmd) (ok : Bool)
deriving DecidableEq, Repr

/-- The identity fields of the `qspi` object
(qspi-flash.h / qspi-flash.cpp 87-90). -/
structure IdState where
  manufacturer_ID_ : Nat
  memory_type_ : Nat
  memory_capacity_ : Nat
  valid_mem_ID : Bool
deriving DecidableEq, Repr

/-- Environment for `qspi::read_JEDEC_ID`: outcome of each fallible step and
the three bytes the hardware returns into `buff`. -/
structure JedecEnv where
  lock_ok : Bool
  cmd_ok : Bool
  recv_ok : Bool
  sem_ok : Bool
  b0 : Nat
  b1 : Nat
  b2 : Nat
deriving DecidableEq, Repr

/-- The identification command built by `qspi::read_JEDEC_ID`
(qspi-flash.cpp 66-76). -/
def jedec_cmd : Cmd :=
  { instruction := JEDEC_ID, addressMode := AddrMode.addr_none,
    dataMode := DataMode.one_line, dummyCycles := 0, nbData := 3,
    address := 0 }

/-- `qspi::read_JEDEC_ID` (qspi-flash.cpp 56-102): lock with bounded wait,
unconditional abort, identification command, interrupt-driven receive,
semaphore wait; on success all three identity fields and the valid flag are
assigned; on any failure after the lock an abort is issued; the mutex is
released on every path that acquired it. -/
def read_JEDEC_ID (env : JedecEnv) (s : IdState) :
    Bool × IdState × List Event :=
  if env.lock_ok then
    if env.cmd_ok then
      if env.recv_ok then
        if env.sem_ok then
          (true,
            { manufacturer_ID_ := env.b0, memory_type_ := env.b1,
              memory_capacity_ := env.b2, valid_mem_ID := true },
            [Event.lockAttempt true, Event.abort,
              Event.command jedec_cmd true, Event.receive_IT true,
              Event.semWait QSPI_TIMEOUT true, Event.unlock])
        else
          (false, s,
            [Event.lockAttempt true, Event.abort,
              Event.command jedec_cmd true, Event.receive_IT true,
              Event.semWait QSPI_TIMEOUT false, Event.abort, Event.unlock])
      else
        (false, s,
          [Event.lockAttempt true, Event.abort,
            Event.command jedec_cmd true, Event.receive_IT false,
            Event.abort, Event.unlock])
    else
      (false, s,
        [Event.lockAttempt true, Event.abort,
          Event.command jedec_cmd false, Event.abort, Event.unlock])
  else (false, s, [Event.lockAttempt false])

/-- The `qspi` profile-selection state touched by `qspi::get_ID_data`
(qspi-flash.cpp 104-119): whether a valid identification exists, and how
many `qspi_winbond` profile objects have been allocated into `pimpl`. -/
structure ProfileState where
  valid_mem_ID : Bool
  profile_allocs : Nat
deriving DecidableEq, Repr

/-- `qspi::get_ID_data` (qspi-flash.cpp 104-119): if the identification is
valid it copies the three identity bytes out and executes
`pimpl = new qspi_winbond {}`, i.e. allocates a fresh profile object on
every successful call. -/
def get_ID_data (s : ProfileState) : Bool × ProfileState :=
  if s.valid_mem_ID then
    (true, { s with profile_allocs := s.profile_allocs + 1 })
  else (false, s)

/-- Environment for `qspi_winbond::mode_quad`: outcome of each fallible
step and the status-register-2 byte received into `datareg`. -/
structure ModeQuadEnv where
  lock_ok : Bool
  cmd_rdsr2_ok : Bool
  recv_ok : Bool
  datareg : Nat
  cmd_vwe_ok : Bool
  cmd_wsr2_ok : Bool
  transmit_ok : Bool
deriving DecidableEq, Repr

/-- Initial command settings of `qspi_winbond::mode_quad`
(qspi-winbond.cpp 56-65). -/
def mq_base : Cmd :=
  { instruction := 0, addressMode := AddrMode.addr_none,
    dataMode := DataMode.one_line, dummyCycles := 0, nbData := 1,
    address := 0 }

/-- The read-status-register-2 command of `mode_quad`
(qspi-winbond.cpp 68). -/
def mq_rdsr2 : Cmd := { mq_base with instruction := READ_STATUS_REGISTER_2 }

/-- The volatile-write-enable command of `mode_quad`
(qspi-winbond.cpp 77-78). -/
def mq_vwe : Cmd :=
  { mq_rdsr2 with
    dataMode := DataMode.data_none
    instruction := VOLATILE_SR_WRITE_ENABLE }

/-- The write-status-register-2 command of `mode_quad`
(qspi-winbond.cpp 83-84). -/
def mq_wsr2 : Cmd :=
  { mq_vwe with
    dataMode := DataMode.one_line
    instruction := WRITE_STATUS_REGISTER_2 }

/-- `qspi_winbond::mode_quad` (qspi-winbond.cpp 46-106): lock, read status
register 2; if the QE bit (bit 1) is already set return success at once;
otherwise volatile-write-enable then write the register back with the bit
set.  Note: no failure path of this function issues an abort; it unlocks
directly. -/
def mode_quad (env : ModeQuadEnv) : Bool × List Event :=
  if env.lock_ok then
    if env.cmd_rdsr2_ok then
      if env.recv_ok then
        if env.datareg &&& 2 = 0 then
          if env.cmd_vwe_ok then
            if env.cmd_wsr2_ok then
              if env.transmit_ok then
                (true,
                  [Event.lockAttempt true, Event.command mq_rdsr2 true,
                    Event.receive true, Event.command mq_vwe true,
                    Event.command mq_wsr2 true, Event.transmit true,
                    Event.unlock])
              else
                (false,
                  [Event.lockAttempt true, Event.command mq_rdsr2 true,
                    Event.receive true, Event.command mq_vwe true,
                    Event.command mq_wsr2 true, Event.transmit false,
                    Event.unlock])
            else
              (false,
                [Event.lockAttempt true, Event.command mq_rdsr2 true,
                  Event.receive true, Event.command mq_vwe true,
                  Event.command mq_wsr2 false, Event.unlock])
          else
            (false,
              [Event.lockAttempt true, Event.command mq_rdsr2 true,
                Event.receive true, Event.command mq_vwe false,
                Event.unlock])
        else
          (true,
            [Event.lockAttempt true, Event.command mq_rdsr2 true,
              Event.receive true, Event.unlock])
      else
        (false,
          [Event.lockAttempt true, Event.command mq_rdsr2 true,
            Event.receive false, Event.unlock])
    else
      (false, [Event.lockAttempt true, Event.command mq_rdsr2 false,
        Event.unlock])
  else (false, [Event.lockAttempt false])

/-- Environment for `qspi_winbond::memory_mapped`. -/
structure MemMapEnv where
  lock_ok : Bool
  memmap_ok : Bool
deriving DecidableEq, Repr

/-- The memory-map configuration command of `qspi_winbond::memory_mapped`
(qspi-winbond.cpp 124-134). -/
def mm_cmd : Cmd :=
  { instruction := FAST_READ_QUAD_OUT, addressMode := AddrMode.one_line,
    dataMode := DataMode.four_lines, dummyCycles := 6, nbData := 0,
    address := 0 }

/-- `qspi_winbond::memory_mapped` (qspi-winbond.cpp 113-145): an
unconditional `HAL_QSPI_Abort` is issued BEFORE the mutex is even
attempted (qspi-winbond.cpp 120), then lock, then the memory-mapped
configuration; failure paths unlock without any further abort. -/
def memory_mapped (env : MemMapEnv) : Bool × List Event :=
  if env.lock_ok then
    if env.memmap_ok then
      (true, [Event.abort, Event.lockAttempt true,
        Event.memMap mm_cmd true, Event.unlock])
    else
      (false, [Event.abort, Event.lockAttempt true,
        Event.memMap mm_cmd false, Event.unlock])
  else (false, [Event.abort, Event.lockAttempt false])

/-- Environment for `qspi_winbond::read`. -/
structure ReadEnv where
  lock_ok : Bool
  cmd_ok : Bool
  recv_it_ok : Bool
  sem_ok : Bool
deriving DecidableEq, Repr

/-- The fast-read command of `qspi_winbond::read`
(qspi-winbond.cpp 163-175). -/
def rd_cmd (address count : Nat) : Cmd :=
  { instruction := FAST_READ_QUAD_OUT, addressMode := AddrMode.one_line,
    dataMode := DataMode.four_lines, dummyCycles := 6, nbData := count,
    address := address }

/-- `qspi_winbond::read` (qspi-winbond.cpp 154-197): lock, unconditional
abort, fast-read command, interrupt-driven receive, semaphore wait; abort
on failure before unlocking. -/
def wb_read (env : ReadEnv) (address count : Nat) : Bool × List Event :=
  if env.lock_ok then
    if env.cmd_ok then
      if env.recv_it_ok then
        if env.sem_ok then
          (true, [Event.lockAttempt true, Event.abort,
            Event.command (rd_cmd address count) true,
            Event.receive_IT true, Event.semWait QSPI_TIMEOUT true,
            Event.unlock])
        else
          (false, [Event.lockAttempt true, Event.abort,
            Event.command (rd_cmd address count) true,
            Event.receive_IT true, Event.semWait QSPI_TIMEOUT false,
            Event.abort, Event.unlock])
      else
        (false, [Event.lockAttempt true, Event.abort,
          Event.command (rd_cmd address count) true,
          Event.receive_IT false, Event.abort, Event.unlock])
    else
      (false, [Event.lockAttempt true, Event.abort,
        Event.command (rd_cmd address count) false, Event.abort,
        Event.unlock])
  else (false, [Event.lockAttempt false])

/-- Environment for `qspi_winbond::page_write`. -/
structure PageWriteEnv where
  lock_ok : Bool
  cmd_we_ok : Bool
  cmd_pp_ok : Bool
  transmit_ok : Bool
  autopoll_ok : Bool
  sem_ok : Bool
deriving DecidableEq, Repr

/-- Initial command settings of `qspi_winbond::page_write`
(qspi-winbond.cpp 216-224). -/
def pw_base : Cmd :=
  { instruction := 0, addressMode := AddrMode.addr_none,
    dataMode := DataMode.data_none, dummyCycles := 0, nbData := 0,
    address := 0 }

/-- The write-enable command of `page_write` (qspi-winbond.cpp 227). -/
def pw_we : Cmd := { pw_base with instruction := WRITE_ENABLE }

/-- The quad page-program command of `page_write`
(qspi-winbond.cpp 231-235). -/
def pw_pp (address count : Nat) : Cmd :=
  { pw_we with
    instruction := QUAD_PAGE_PROGRAM
    addressMode := AddrMode.one_line
    dataMode := DataMode.four_lines
    address := address
    nbData := count }

/-- The status auto-polling command of `page_write`
(qspi-winbond.cpp 241-243). -/
def pw_poll (address count : Nat) : Cmd :=
  { pw_pp address count with
    addressMode := AddrMode.addr_none
    dataMode := DataMode.one_line
    instruction := READ_STATUS_REGISTER }

/-- `qspi_winbond::page_write` (qspi-winbond.cpp 206-269): lock, then —
under the SAME lock — write-enable command, page-program command, payload
transmit, and the auto-polling wait on the write-in-progress bit; abort on
failure before unlocking. -/
def page_write (env : PageWriteEnv) (address count : Nat) :
    Bool × List Event :=
  if env.lock_ok then
    if env.cmd_we_ok then
      if env.cmd_pp_ok then
        if env.transmit_ok then
          if env.autopoll_ok then
            if env.sem_ok then
              (true, [Event.lockAttempt true, Event.command pw_we true,
                Event.command (pw_pp address count) true,
                Event.transmit true,
                Event.autopoll_IT (pw_poll address count) true,
                Event.semWait QSPI_TIMEOUT true, Event.unlock])
            else
              (false, [Event.lockAttempt true, Event.command pw_we true,
                Event.command (pw_pp address count) true,
                Event.transmit true,
                Event.autopoll_IT (pw_poll address count) true,
                Event.semWait QSPI_TIMEOUT false, Event.abort,
                Event.unlock])
          else
            (false, [Event.lockAttempt true, Event.command pw_we true,
              Event.command (pw_pp address count) true,
              Event.transmit true,
              Event.autopoll_IT (pw_poll address count) false,
              Event.abort, Event.unlock])
        else
          (false, [Event.lockAttempt true, Event.command pw_we true,
            Event.command (pw_pp address count) true,
            Event.transmit false, Event.abort, Event.unlock])
      else
        (false, [Event.lockAttempt true, Event.command pw_we true,
          Event.command (pw_pp address count) false, Event.abort,
          Event.unlock])
    else
      (false, [Event.lockAttempt true, Event.command pw_we false,
        Event.abort, Event.unlock])
  else (false, [Event.lockAttempt false])

/-- Environment for `qspi::erase`. -/
structure EraseEnv where
  lock_ok : Bool
  cmd_we_ok : Bool
  cmd_erase_ok : Bool
  autopoll_ok : Bool
  sem_ok : Bool
deriving DecidableEq, Repr

/-- Initial command settings of `qspi::erase` (qspi-flash.cpp 176-184). -/
def er_base : Cmd :=
  { instruction := 0, addressMode := AddrMode.addr_none,
    dataMode := DataMode.data_none, dummyCycles := 0, nbData := 0,
    address := 0 }

/-- The write-enable command of `qspi::erase` (qspi-flash.cpp 189). -/
def er_we : Cmd := { er_base with instruction := WRITE_ENABLE }

/-- The erase command of `qspi::erase` (qspi-flash.cpp 193-197): the opcode
is the `which` argument itself; the address phase is disabled exactly for
`CHIP_ERASE` and is 1-line otherwise; the `Address` field is always
assigned the given address. -/
def er_cmd (address which : Nat) : Cmd :=
  { er_we with
    instruction := which
    addressMode :=
      if which = CHIP_ERASE then AddrMode.addr_none else AddrMode.one_line
    dataMode := DataMode.data_none
    address := address }

/-- The status auto-polling command of `qspi::erase`
(qspi-flash.cpp 201-203). -/
def er_poll (address which : Nat) : Cmd :=
  { er_cmd address which with
    instruction := READ_STATUS_REGISTER
    addressMode := AddrMode.addr_none
    dataMode := DataMode.one_line }

/-- The semaphore bound chosen by `qspi::erase` (qspi-flash.cpp 213-215). -/
def erase_timeout (which : Nat) : Nat :=
  if which = CHIP_ERASE then QSPI_CHIP_ERASE_TIMEOUT else QSPI_ERASE_TIMEOUT

/-- `qspi::erase` (qspi-flash.cpp 166-229): lock, unconditional abort, then
— under the SAME lock — write-enable command, erase command, auto-polling
wait bounded by the granularity-specific timeout; abort on failure before
unlocking. -/
def erase (env : EraseEnv) (address which : Nat) : Bool × List Event :=
  if env.lock_ok then
    if env.cmd_we_ok then
      if env.cmd_erase_ok then
        if env.autopoll_ok then
          if env.sem_ok then
            (true, [Event.lockAttempt true, Event.abort,
              Event.command er_we true,
              Event.command (er_cmd address which) true,
              Event.autopoll_IT (er_poll address which) true,
              Event.semWait (erase_timeout which) true, Event.unlock])
          else
            (false, [Event.lockAttempt true, Event.abort,
              Event.command er_we true,
              Event.command (er_cmd address which) true,
              Event.autopoll_IT (er_poll address which) true,
              Event.semWait (erase_timeout which) false, Event.abort,
              Event.unlock])
        else
          (false, [Event.lockAttempt true, Event.abort,
            Event.command er_we true,
            Event.command (er_cmd address which) true,
            Event.autopoll_IT (er_poll address which) false, Event.abort,
            Event.unlock])
      else
        (false, [Event.lockAttempt true, Event.abort,
          Event.command er_we true,
          Event.command (er_cmd address which) false, Event.abort,
          Event.unlock])
    else
      (false, [Event.lockAttempt true, Event.abort,
        Event.command er_we false, Event.abort, Event.unlock])
  else (false, [Event.lockAttempt false])

/-- Decides whether a trace ever holds the mutex across two or more
`HAL_QSPI_Command` issues: scans the trace, counting commands issued since
the last lock acquisition; `false` as soon as a second command is seen
inside one lock window. -/
def lock_single_cmd : List Event → Bool → Nat → Bool
  | [], _, _ => true
  | Event.lockAttempt true :: rest, _, _ => lock_single_cmd rest true 0
  | Event.unlock :: rest, _, _ => lock_single_cmd rest false 0
  | Event.command _ _ :: rest, locked, n =>
      if locked then
        if n ≥ 1 then false else lock_single_cmd rest locked (n + 1)
      else lock_single_cmd rest locked n
  | _ :: rest, locked, n => lock_single_cmd rest locked n

/-- Top-level check: no lock window of the trace contains two commands. -/
def lock_never_across_cmds (tr : List Event) : Bool :=
  lock_single_cmd tr false 0

/-- Decides whether a trace ends with an abort immediately followed by the
unlock — the shape of a failure path that forces the bus back to idle
before releasing the mutex. -/
def ends_abort_unlock (tr : List Event) : Bool :=
  match tr.reverse with
  | Event.unlock :: Event.abort :: _ => true
  | _ => false

/-- Decides whether, after the initial lock acquisition, a trace performs
no further lock or unlock action until a single unlock that ends it. -/
def mid_ok : List Event → Bool
  | [Event.unlock] => true
  | Event.lockAttempt _ :: _ => false
  | Event.unlock :: _ => false
  | _ :: rest => mid_ok rest
  | [] => false

/-- Decides whether a trace is one single lock window: a successful lock
acquisition, then hardware actions only, then one final unlock. -/
def single_lock_window (tr : List Event) : Bool :=
  match tr with
  | Event.lockAttempt true :: rest => mid_ok rest
  | _ => false

theorem land_255_eq_mod (a : Nat) : a &&& 0xFF = a % 0x100 := by
  have h := Nat.and_pow_two_sub_one_eq_mod a 8
  simpa using h

theorem in_block_count_eq_min (address count : Nat) :
    in_block_count address count = min count (0x100 - address % 0x100) := by
  have hlt : address % 0x100 < 0x100 := Nat.mod_lt _ (by norm_num)
  simp only [in_block_count, land_255_eq_mod]
  split
  · omega
  · split
    · omega
    · omega

theorem write_run_true_split (count : Nat) :
    ∀ address buff, List.length buff = count → 1 ≤ count →
    ((((write_run (fun _ _ => true) address buff count).2).map
        Prod.snd).flatten = buff) ∧
    (∀ c ∈ (write_run (fun _ _ => true) address buff count).2,
        c.2.length ≤ 0x100 ∧ c.1 % 0x100 + c.2.length ≤ 0x100) ∧
    (((write_run (fun _ _ => true) address buff count).2).map
        (fun c => (c.1, c.2.length)) = chunks_spec address count) := by
  induction count using Nat.strong_induction_on with
  | _ count ih =>
    intro address buff hlen hpos
    have hlt : address % 0x100 < 0x100 := Nat.mod_lt _ (by norm_num)
    have hibc : in_block_count address count
        = min count (0x100 - address % 0x100) :=
      in_block_count_eq_min address count
    have hibc_pos : 1 ≤ in_block_count address count := by omega
    have hibc_le : in_block_count address count ≤ count := by omega
    have hibc_page :
        address % 0x100 + in_block_count address count ≤ 0x100 := by omega
    set ibc := in_block_count address count with hibc_def
    have htake : (buff.take ibc).length = ibc := by
      rw [List.length_take]; omega
    rw [write_run]
    rw [← hibc_def]
    by_cases hz : count - ibc = 0
    · -- last iteration: the chunk swallows the whole remaining count
      have htakeall : buff.take ibc = buff := by
        apply List.take_of_length_le; omega
      simp only [if_neg (by simp : ¬((fun (_ _ : Nat) => true) address ibc = false)),
        if_pos hz]
      refine ⟨by simp [htakeall], ?_, ?_⟩
      · intro c hc
        simp only [List.mem_singleton] at hc
        subst hc
        simp only [htake]
        omega
      · rw [chunks_spec]
        have hl : min count (0x100 - address % 0x100) = ibc := hibc.symm
        rw [hl, if_pos hz]
        simp [htake]
    · -- more iterations follow
      have hdrop : (buff.drop ibc).length = count - ibc := by
        rw [List.length_drop]; omega
      have hrec := ih (count - ibc) (by omega) (address + ibc)
        (buff.drop ibc) hdrop (by omega)
      simp only [if_neg (by simp : ¬((fun (_ _ : Nat) => true) address ibc = false)),
        if_neg hz]
      refine ⟨?_, ?_, ?_⟩
      · simp only [List.map_cons, List.flatten_cons]
        rw [hrec.1, List.take_append_drop]
      · intro c hc
        simp only [List.mem_cons] at hc
        rcases hc with hc | hc
        · subst hc
          simp only [htake]
          omega
        · exact hrec.2.1 c hc
      · rw [chunks_spec]
        have hl : min count (0x100 - address % 0x100) = ibc := hibc.symm
        rw [hl, if_neg hz]
        simp only [List.map_cons, htake]
        rw [hrec.2.2]


/-!
### Claims about the page-splitting of `qspi::write`
-/

/-- C1: for every starting address and every count ≥ 1 (taking
`count = buff.length`), `qspi::write` splits `[address, address+count)`
into chunks issued to `page_write` whose lengths follow
`min(remaining, 256 - (address & 0xFF))` (the `chunks_spec` recursion),
every chunk length is ≤ 256, no chunk crosses a 256-byte page boundary,
and concatenating the chunks reproduces the original buffer; in
particular `write(0x0F0, data, 32)` issues exactly the two chunks
`(0x0F0, 16)` and `(0x100, 16)`. -/
theorem c1_write_page_split (address : Nat) (buff : List Nat)
    (h : buff ≠ []) :
    ((((write_chunks address buff).map Prod.snd).flatten = buff) ∧
    (∀ c ∈ write_chunks address buff,
        c.2.length ≤ 0x100 ∧ c.1 % 0x100 + c.2.length ≤ 0x100) ∧
    ((write_chunks address buff).map (fun c => (c.1, c.2.length))
        = chunks_spec address buff.length)) ∧
    ((write_chunks 0x0F0 (List.range 32)).map (fun c => (c.1, c.2.length))
        = [(0x0F0, 16), (0x100, 16)]) := by
  have hpos : 1 ≤ buff.length := by
    cases buff with
    | nil => simp at h
    | cons a l => simp
  have hmain := write_run_true_split buff.length address buff rfl hpos
  refine ⟨⟨hmain.1, hmain.2.1, hmain.2.2⟩, ?_⟩
  have hlen32 : (List.range 32).length = 32 := by simp
  have h32 := write_run_true_split 32 0x0F0 (List.range 32) hlen32
    (by norm_num)
  have hch : (write_chunks 0x0F0 (List.range 32)).map
      (fun c => (c.1, c.2.length)) = chunks_spec 0x0F0 32 := by
    unfold write_chunks
    rw [hlen32]
    exact h32.2.2
  rw [hch]
  rw [chunks_spec]
  norm_num
  rw [chunks_spec]
  norm_num

/-- C1 witness: the split of a concrete 32-byte write at 0x0F0. -/
theorem c1_write_page_split_witness :
    (((write_chunks 0x0F0 (List.range 32)).map Prod.snd).flatten
        = List.range 32) ∧
    ((write_chunks 0x0F0 (List.range 32)).map (fun c => (c.1, c.2.length))
        = [(0x0F0, 16), (0x100, 16)]) := by
  have h := c1_write_page_split 0x0F0 (List.range 32) (by simp)
  exact ⟨h.1.1, h.2⟩

/-- C9: a call to `qspi::write` with `count == 0` is not a no-op: the
`do`/`while` loop still executes one iteration and invokes `page_write`
exactly once, with length 0, and `write`'s result is that `page_write`
call's result; the `page_write` call itself issues the write-enable
command and a zero-length page-program command. -/
theorem c9_write_zero_count (pw : Nat → Nat → Bool) (address : Nat)
    (buff : List Nat) :
    (write_run pw address buff 0 = (pw address 0, [(address, [])])) ∧
    (Event.command pw_we true ∈
        (page_write ⟨true, true, true, true, true, true⟩ address 0).2 ∧
      Event.command (pw_pp address 0) true ∈
        (page_write ⟨true, true, true, true, true, true⟩ address 0).2) := by
  refine ⟨?_, ?_, ?_⟩
  · rw [write_run]
    have h : in_block_count address 0 = 0 := by
      rw [in_block_count_eq_min]; omega
    rw [h]
    cases hpw : pw address 0 <;> simp [hpw]
  · simp [page_write]
  · simp [page_write]

/-- C10: for every address the initial chunk-size computation
`0x100 - (address & 0xFF)` lies in [1, 256], hence the branch of
`qspi::write` taken when that value is 0 is unreachable (the function
equals its dead-branch-free form), and for every count ≥ 1 the chunk
length used equals `min(count, 256 - (address & 0xFF))`, page-aligned
addresses included. -/
theorem c10_in_block_count_range (address count : Nat) :
    ((1 ≤ 0x100 - (address &&& 0xFF)) ∧ (0x100 - (address &&& 0xFF) ≤ 0x100)) ∧
    (in_block_count address count =
      if 0x100 - (address &&& 0xFF) > count then count
      else 0x100 - (address &&& 0xFF)) ∧
    (1 ≤ count →
      in_block_count address count
        = min count (0x100 - (address &&& 0xFF))) := by
  have h255 : address &&& 0xFF ≤ 0xFF := Nat.and_le_right
  refine ⟨⟨by omega, by omega⟩, ?_, ?_⟩
  · by_cases hgt : 0x100 - (address &&& 0xFF) > count
    · simp only [in_block_count, if_pos hgt]
    · simp only [in_block_count, if_neg hgt]
      rw [if_neg (by omega : ¬(0x100 - (address &&& 0xFF) = 0))]
  · intro hcount
    rw [land_255_eq_mod]
    exact in_block_count_eq_min address count

/-- C10 witness: concrete evaluation at a page-aligned and a misaligned
address. -/
theorem c10_in_block_count_range_witness :
    1 ≤ 3 ∧ in_block_count 0x0F0 3 = min 3 (0x100 - (0x0F0 &&& 0xFF)) :=
  ⟨by norm_num, (c10_in_block_count_range 0x0F0 3).2.2 (by norm_num)⟩

/-!
### Claims about the synchronization and error-handling protocol
-/

/-- C2 counterexample: `qspi_winbond::mode_quad` with the status-register
read command rejected returns failure and releases the mutex without ever
issuing an abort — one hardware operation with a failing step whose
failure path releases the lock without aborting, refuting the claim. -/
theorem c2_mode_quad_no_abort_counterexample :
    (mode_quad ⟨true, false, true, 0, true, true, true⟩).1 = false ∧
    Event.unlock ∈ (mode_quad ⟨true, false, true, 0, true, true, true⟩).2 ∧
    Event.abort ∉ (mode_quad ⟨true, false, true, 0, true, true, true⟩).2 := by
  decide

/-- C2 amended: `read_JEDEC_ID`, `qspi_winbond::read`, `page_write` and
`erase` do issue an abort on every failure path entered after a successful
lock acquisition, immediately before releasing the mutex; `mode_quad` and
`memory_mapped` are excluded — `mode_quad` never aborts on failure and
`memory_mapped` aborts only unconditionally before its lock attempt. -/
theorem c2_abort_before_unlock_amended (e1 : JedecEnv) (s : IdState)
    (e2 : ReadEnv) (a2 c2 : Nat) (e3 : PageWriteEnv) (a3 c3 : Nat)
    (e4 : EraseEnv) (a4 w4 : Nat) :
    (e1.lock_ok = true → (read_JEDEC_ID e1 s).1 = false →
      ends_abort_unlock ((read_JEDEC_ID e1 s).2.2) = true) ∧
    (e2.lock_ok = true → (wb_read e2 a2 c2).1 = false →
      ends_abort_unlock ((wb_read e2 a2 c2).2) = true) ∧
    (e3.lock_ok = true → (page_write e3 a3 c3).1 = false →
      ends_abort_unlock ((page_write e3 a3 c3).2) = true) ∧
    (e4.lock_ok = true → (erase e4 a4 w4).1 = false →
      ends_abort_unlock ((erase e4 a4 w4).2) = true) := by
  refine ⟨?_, ?_, ?_, ?_⟩
  · rcases e1 with ⟨l, c, r, sm, b0, b1, b2⟩
    intro hl hres
    subst hl
    cases c <;> cases r <;> cases sm <;>
      simp_all [read_JEDEC_ID, ends_abort_unlock]
  · rcases e2 with ⟨l, c, r, sm⟩
    intro hl hres
    subst hl
    cases c <;> cases r <;> cases sm <;>
      simp_all [wb_read, ends_abort_unlock]
  · rcases e3 with ⟨l, we, pp, t, ap, sm⟩
    intro hl hres
    subst hl
    cases we <;> cases pp <;> cases t <;> cases ap <;> cases sm <;>
      simp_all [page_write, ends_abort_unlock]
  · rcases e4 with ⟨l, we, er, ap, sm⟩
    intro hl hres
    subst hl
    cases we <;> cases er <;> cases ap <;> cases sm <;>
      simp_all [erase, ends_abort_unlock]

/-- C2 amended witness: concrete failing runs of the four aborting
operations. -/
theorem c2_abort_before_unlock_amended_witness :
    ends_abort_unlock
      ((read_JEDEC_ID ⟨true, false, true, true, 0, 0, 0⟩
        ⟨0, 0, 0, false⟩).2.2) = true ∧
    ends_abort_unlock ((wb_read ⟨true, true, true, false⟩ 0 4).2) = true ∧
    ends_abort_unlock
      ((page_write ⟨true, true, false, true, true, true⟩ 0 4).2) = true ∧
    ends_abort_unlock ((erase ⟨true, true, true, true, false⟩ 0 0x20).2)
      = true := by
  have h := c2_abort_before_unlock_amended
    ⟨true, false, true, true, 0, 0, 0⟩ ⟨0, 0, 0, false⟩
    ⟨true, true, true, false⟩ 0 4
    ⟨true, true, false, true, true, true⟩ 0 4
    ⟨true, true, true, true, false⟩ 0 0x20
  exact ⟨h.1 rfl (by decide), h.2.1 rfl (by decide),
    h.2.2.1 rfl (by decide), h.2.2.2 rfl (by decide)⟩

/-- C3 counterexample: a successful `page_write` (and a successful `erase`)
holds the mutex across its write-enable command and its program/erase
command — two sequential hardware commands inside one lock window — so the
lock is NOT acquired and released independently per sub-step. -/
theorem c3_lock_across_commands_counterexample :
    (page_write ⟨true, true, true, true, true, true⟩ 0 16).1 = true ∧
    lock_never_across_cmds
      ((page_write ⟨true, true, true, true, true, true⟩ 0 16).2) = false ∧
    lock_never_across_cmds
      ((erase ⟨true, true, true, true, true⟩ 0 0x20).2) = false := by
  decide

/-- C3 amended: each multi-step operation acquires the mutex once and holds
it across its entire sub-step sequence (write-enable, program/erase,
status poll), releasing it exactly once at the end; shown here for
`page_write` and `erase` on every run whose lock acquisition succeeds. -/
theorem c3_single_lock_window_amended (e3 : PageWriteEnv) (a3 c3 : Nat)
    (e4 : EraseEnv) (a4 w4 : Nat) :
    (e3.lock_ok = true →
      single_lock_window ((page_write e3 a3 c3).2) = true) ∧
    (e4.lock_ok = true →
      single_lock_window ((erase e4 a4 w4).2) = true) := by
  constructor
  · rcases e3 with ⟨l, we, pp, t, ap, sm⟩
    intro hl
    subst hl
    cases we <;> cases pp <;> cases t <;> cases ap <;> cases sm <;>
      simp [page_write, single_lock_window, mid_ok]
  · rcases e4 with ⟨l, we, er, ap, sm⟩
    intro hl
    subst hl
    cases we <;> cases er <;> cases ap <;> cases sm <;>
      simp [erase, single_lock_window, mid_ok]

/-- C3 amended witness: concrete successful runs. -/
theorem c3_single_lock_window_amended_witness :
    single_lock_window
      ((page_write ⟨true, true, true, true, true, true⟩ 0 16).2) = true ∧
    single_lock_window ((erase ⟨true, true, true, true, true⟩ 0 0x20).2)
      = true := by
  have h := c3_single_lock_window_amended
    ⟨true, true, true, true, true, true⟩ 0 16
    ⟨true, true, true, true, true⟩ 0 0x20
  exact ⟨h.1 rfl, h.2 rfl⟩

/-- C4 (code defect, qspi-flash.cpp 115): every successful `get_ID_data`
query executes `pimpl = new qspi_winbond {}`; two successive successful
queries after one successful identification allocate two profile objects,
not one. -/
theorem c4_profile_realloc_bug :
    ((get_ID_data ⟨true, 0⟩).1 = true) ∧
    ((get_ID_data (get_ID_data ⟨true, 0⟩).2).1 = true) ∧
    ((get_ID_data (get_ID_data ⟨true, 0⟩).2).2.profile_allocs = 2) := by
  decide

/-- C5: when the status-register-2 read succeeds and the quad-enable bit
(bit 1) is already set, `mode_quad` returns success and issues neither the
volatile-write-enable command nor the status-register-2 write command. -/
theorem c5_mode_quad_idempotent (env : ModeQuadEnv)
    (hl : env.lock_ok = true) (hc : env.cmd_rdsr2_ok = true)
    (hr : env.recv_ok = true) (hq : ¬(env.datareg &&& 2 = 0)) :
    (mode_quad env).1 = true ∧
    (∀ c ok, Event.command c ok ∈ (mode_quad env).2 →
      c.instruction ≠ VOLATILE_SR_WRITE_ENABLE ∧
      c.instruction ≠ WRITE_STATUS_REGISTER_2) := by
  rcases env with ⟨l, cR, r, d, v, w, t⟩
  simp only at hl hc hr hq
  subst hl
  subst hc
  subst hr
  constructor
  · simp [mode_quad, hq]
  · intro c ok hmem
    simp [mode_quad, hq] at hmem
    rcases hmem with ⟨hc2, -⟩
    subst hc2
    decide

/-- C5 witness: a concrete run with the quad-enable bit already set. -/
theorem c5_mode_quad_idempotent_witness :
    (mode_quad ⟨true, true, true, 2, true, true, true⟩).1 = true ∧
    (∀ c ok,
      Event.command c ok ∈ (mode_quad ⟨true, true, true, 2, true, true, true⟩).2 →
      c.instruction ≠ VOLATILE_SR_WRITE_ENABLE ∧
      c.instruction ≠ WRITE_STATUS_REGISTER_2) := by
  have h := c5_mode_quad_idempotent ⟨true, true, true, 2, true, true, true⟩
    rfl rfl rfl (by decide)
  exact h

/-- C6: `read_JEDEC_ID` updates the identity atomically — on success it
sets all three identity fields and the valid flag in one transition; on
any failure (lock, command, receive or semaphore-wait) it leaves the
identity state exactly as it was. -/
theorem c6_jedec_atomic_update (env : JedecEnv) (s : IdState) :
    ((read_JEDEC_ID env s).1 = false → (read_JEDEC_ID env s).2.1 = s) ∧
    ((read_JEDEC_ID env s).1 = true →
      (read_JEDEC_ID env s).2.1 =
        { manufacturer_ID_ := env.b0, memory_type_ := env.b1,
          memory_capacity_ := env.b2, valid_mem_ID := true }) := by
  rcases env with ⟨l, c, r, sm, b0, b1, b2⟩
  cases l <;> cases c <;> cases r <;> cases sm <;>
    simp [read_JEDEC_ID]

/-- C6 witness: a failing run leaves the state alone; a succeeding run sets
all fields and the valid flag. -/
theorem c6_jedec_atomic_update_witness :
    ((read_JEDEC_ID ⟨false, true, true, true, 1, 2, 3⟩
        ⟨9, 9, 9, false⟩).2.1 = ⟨9, 9, 9, false⟩) ∧
    ((read_JEDEC_ID ⟨true, true, true, true, 1, 2, 3⟩
        ⟨9, 9, 9, false⟩).2.1 = ⟨1, 2, 3, true⟩) := by
  constructor
  · exact (c6_jedec_atomic_update ⟨false, true, true, true, 1, 2, 3⟩
      ⟨9, 9, 9, false⟩).1 (by decide)
  · exact (c6_jedec_atomic_update ⟨true, true, true, true, 1, 2, 3⟩
      ⟨9, 9, 9, false⟩).2 (by decide)

/-- C7 counterexample: `qspi_winbond::memory_mapped` issues its
unconditional `HAL_QSPI_Abort` before even attempting the mutex, so a run
whose lock acquisition fails has nevertheless interacted with the hardware
command unit, refuting the claim for this operation. -/
theorem c7_memory_mapped_prelock_abort_counterexample :
    (memory_mapped ⟨false, true⟩).1 = false ∧
    Event.abort ∈ (memory_mapped ⟨false, true⟩).2 := by
  decide

/-- C7 amended: on lock-acquisition failure, `read_JEDEC_ID`, `mode_quad`,
`read`, `page_write` and `erase` return failure having performed no
hardware interaction at all; `memory_mapped` also returns failure and
performs nothing after the failed lock attempt, but has already issued one
unconditional abort beforehand. -/
theorem c7_lock_fail_no_hw_amended (e1 : JedecEnv) (s : IdState)
    (e2 : ModeQuadEnv) (e3 : MemMapEnv) (e4 : ReadEnv) (a4 c4 : Nat)
    (e5 : PageWriteEnv) (a5 c5 : Nat) (e6 : EraseEnv) (a6 w6 : Nat) :
    (e1.lock_ok = false → (read_JEDEC_ID e1 s).1 = false ∧
      (read_JEDEC_ID e1 s).2.2 = [Event.lockAttempt false]) ∧
    (e2.lock_ok = false → (mode_quad e2).1 = false ∧
      (mode_quad e2).2 = [Event.lockAttempt false]) ∧
    (e3.lock_ok = false → (memory_mapped e3).1 = false ∧
      (memory_mapped e3).2 = [Event.abort, Event.lockAttempt false]) ∧
    (e4.lock_ok = false → (wb_read e4 a4 c4).1 = false ∧
      (wb_read e4 a4 c4).2 = [Event.lockAttempt false]) ∧
    (e5.lock_ok = false → (page_write e5 a5 c5).1 = false ∧
      (page_write e5 a5 c5).2 = [Event.lockAttempt false]) ∧
    (e6.lock_ok = false → (erase e6 a6 w6).1 = false ∧
      (erase e6 a6 w6).2 = [Event.lockAttempt false]) := by
  refine ⟨?_, ?_, ?_, ?_, ?_, ?_⟩ <;> intro hl
  · simp [read_JEDEC_ID, hl]
  · simp [mode_quad, hl]
  · simp [memory_mapped, hl]
  · simp [wb_read, hl]
  · simp [page_write, hl]
  · simp [erase, hl]

/-- C7 amended witness: concrete lock-failure runs of all six
operations. -/
theorem c7_lock_fail_no_hw_amended_witness :
    ((read_JEDEC_ID ⟨false, true, true, true, 0, 0, 0⟩
        ⟨0, 0, 0, false⟩).2.2 = [Event.lockAttempt false]) ∧
    ((mode_quad ⟨false, true, true, 0, true, true, true⟩).2
        = [Event.lockAttempt false]) ∧
    ((memory_mapped ⟨false, true⟩).2
        = [Event.abort, Event.lockAttempt false]) ∧
    ((wb_read ⟨false, true, true, true⟩ 0 4).2
        = [Event.lockAttempt false]) ∧
    ((page_write ⟨false, true, true, true, true, true⟩ 0 4).2
        = [Event.lockAttempt false]) ∧
    ((erase ⟨false, true, true, true, true⟩ 0 0x20).2
        = [Event.lockAttempt false]) := by
  have h := c7_lock_fail_no_hw_amended
    ⟨false, true, true, true, 0, 0, 0⟩ ⟨0, 0, 0, false⟩
    ⟨false, true, true, 0, true, true, true⟩ ⟨false, true⟩
    ⟨false, true, true, true⟩ 0 4
    ⟨false, true, true, true, true, true⟩ 0 4
    ⟨false, true, true, true, true⟩ 0 0x20
  exact ⟨(h.1 rfl).2, (h.2.1 rfl).2, (h.2.2.1 rfl).2, (h.2.2.2.1 rfl).2,
    (h.2.2.2.2.1 rfl).2, (h.2.2.2.2.2 rfl).2⟩

/-- C8: the erase command carries a 1-line address equal to the given
address for sector, 32K-block and 64K-block erase and no address phase for
chip erase; the auto-polling semaphore wait uses the chip-erase bound
exactly when the granularity is chip erase, the sector/block bound
otherwise, and the chip-erase bound is strictly longer. -/
theorem c8_erase_address_and_timeout (env : EraseEnv)
    (address which : Nat) (hl : env.lock_ok = true)
    (hwe : env.cmd_we_ok = true) :
    (Event.command (er_cmd address which) env.cmd_erase_ok ∈
      (erase env address which).2) ∧
    ((which = SECTOR_ERASE ∨ which = BLOCK_32K_ERASE ∨
        which = BLOCK_64K_ERASE) →
      (er_cmd address which).addressMode = AddrMode.one_line ∧
      (er_cmd address which).address = address) ∧
    (which = CHIP_ERASE →
      (er_cmd address which).addressMode = AddrMode.addr_none) ∧
    (env.cmd_erase_ok = true → env.autopoll_ok = true →
      Event.semWait (erase_timeout which) env.sem_ok ∈
        (erase env address which).2) ∧
    (erase_timeout which = QSPI_CHIP_ERASE_TIMEOUT ↔ which = CHIP_ERASE) ∧
    (QSPI_ERASE_TIMEOUT < QSPI_CHIP_ERASE_TIMEOUT) := by
  rcases env with ⟨l, we, er, ap, sm⟩
  simp only at hl hwe
  subst hl
  subst hwe
  refine ⟨?_, ?_, ?_, ?_, ?_, ?_⟩
  · cases er <;> cases ap <;> cases sm <;> simp [erase]
  · rintro (h | h | h) <;> subst h <;>
      exact ⟨by simp [er_cmd, CHIP_ERASE, SECTOR_ERASE, BLOCK_32K_ERASE,
        BLOCK_64K_ERASE], rfl⟩
  · intro h
    subst h
    simp [er_cmd]
  · intro he ha
    simp only at he ha
    subst he
    subst ha
    cases sm <;> simp [erase]
  · constructor
    · intro h
      by_cases hw : which = CHIP_ERASE
      · exact hw
      · simp [erase_timeout, hw, QSPI_ERASE_TIMEOUT,
          QSPI_CHIP_ERASE_TIMEOUT] at h
    · intro h
      simp [erase_timeout, h]
  · decide

/-- C8 witness: concrete chip-erase and sector-erase runs. -/
theorem c8_erase_address_and_timeout_witness :
    (Event.semWait (erase_timeout CHIP_ERASE) true ∈
      (erase ⟨true, true, true, true, true⟩ 0 CHIP_ERASE).2) ∧
    ((er_cmd 0 CHIP_ERASE).addressMode = AddrMode.addr_none) ∧
    ((er_cmd 0x1000 SECTOR_ERASE).addressMode = AddrMode.one_line) ∧
    ((er_cmd 0x1000 SECTOR_ERASE).address = 0x1000) := by
  have h1 := c8_erase_address_and_timeout ⟨true, true, true, true, true⟩
    0 CHIP_ERASE rfl rfl
  have h2 := c8_erase_address_and_timeout ⟨true, true, true, true, true⟩
    0x1000 SECTOR_ERASE rfl rfl
  exact ⟨h1.2.2.2.1 rfl rfl, h1.2.2.1 rfl, (h2.2.1 (Or.inl rfl)).1,
    (h2.2.1 (Or.inl rfl)).2⟩


end Qspi
